import Mathlib

/-!
Verification of `src-tauri/create_icon.py`: a script that builds a minimal
16x16 ICO file as a byte sequence and writes it to disk.

Bytes are modelled as `Nat` values below 256.  Python's `struct.pack` with a
little-endian format is modelled as a fallible packing function: it returns
`none` when a value does not fit the declared field width (Python raises
`struct.error` in that case), and otherwise the little-endian bytes.
-/

set_option maxRecDepth 100000

namespace CreateIcon

/-- Little-endian byte encoding of `n` in `w` bytes. -/
def leBytes (w n : Nat) : List Nat :=
  match w with
  | 0 => []
  | k + 1 => n % 256 :: leBytes k (n / 256)

/-- Model of `struct.pack` field format B (unsigned 8-bit, little-endian):
fails like `struct.error` when the value does not fit. -/
def packB (n : Nat) : Option (List Nat) :=
  if n < 2 ^ 8 then some (leBytes 1 n) else none

/-- Model of `struct.pack` field format H (unsigned 16-bit, little-endian). -/
def packH (n : Nat) : Option (List Nat) :=
  if n < 2 ^ 16 then some (leBytes 2 n) else none

/-- Model of `struct.pack` field format L (unsigned 32-bit, little-endian,
standard size as selected by the leading <). -/
def packL (n : Nat) : Option (List Nat) :=
  if n < 2 ^ 32 then some (leBytes 4 n) else none

/-- Constant `width = 16` from `create_minimal_ico` (line 10). -/
def width : Nat := 16

/-- Constant `height = 16` from `create_minimal_ico` (line 11). -/
def height : Nat := 16

/-- Constant `colors = 0` from `create_minimal_ico` (line 12). -/
def colors : Nat := 0

/-- Constant `reserved = 0` from `create_minimal_ico` (line 13). -/
def reserved : Nat := 0

/-- Constant `planes = 1` from `create_minimal_ico` (line 14). -/
def planes : Nat := 1

/-- Constant `bits_per_pixel = 32` from `create_minimal_ico` (line 15). -/
def bits_per_pixel : Nat := 32

/-- Computed `size_in_bytes = 40 + (width * height * 4)` (line 16). -/
def size_in_bytes : Nat := 40 + width * height * 4

/-- Constant `offset = 22` from `create_minimal_ico` (line 17). -/
def offset : Nat := 22

/-- Embedding of `ico_header = struct.pack('<HHH', 0, 1, 1)` (line 7). -/
def ico_header : Option (List Nat) := do
  pure ((← packH 0) ++ (← packH 1) ++ (← packH 1))

/-- Embedding of `ico_dir_entry = struct.pack('<BBBBHHLL', width, height,
colors, reserved, planes, bits_per_pixel, size_in_bytes, offset)`
(lines 19-21). -/
def ico_dir_entry : Option (List Nat) := do
  pure ((← packB width) ++ (← packB height) ++ (← packB colors) ++
        (← packB reserved) ++ (← packH planes) ++ (← packH bits_per_pixel) ++
        (← packL size_in_bytes) ++ (← packL offset))

/-- Embedding of `dib_header = struct.pack('<LLLHHLLLLLL', 40, width,
height * 2, 1, bits_per_pixel, 0, width * height * 4, 0, 0, 0, 0)`
(lines 24-35). -/
def dib_header : Option (List Nat) := do
  pure ((← packL 40) ++ (← packL width) ++ (← packL (height * 2)) ++
        (← packH 1) ++ (← packH bits_per_pixel) ++ (← packL 0) ++
        (← packL (width * height * 4)) ++ (← packL 0) ++ (← packL 0) ++
        (← packL 0) ++ (← packL 0))

/-- Embedding of the nested pixel loop (lines 39-43): for `y` in
`range(h)`, for `x` in `range(w)`, append `struct.pack('<BBBB', 255, 0, 0,
255)` to the accumulator, starting from the empty byte string. -/
def pixel_data (w h : Nat) : Option (List Nat) :=
  (List.range h).foldlM
    (fun acc _y =>
      (List.range w).foldlM
        (fun acc2 _x => do
          pure (acc2 ++ (← packB 255) ++ (← packB 0) ++ (← packB 0) ++
                (← packB 255)))
        acc)
    []

/-- Embedding of `create_minimal_ico` (lines 5-48): concatenation
`ico_header + ico_dir_entry + dib_header + pixel_data` (line 46). -/
def create_minimal_ico : Option (List Nat) := do
  pure ((← ico_header) ++ (← ico_dir_entry) ++ (← dib_header) ++
        (← pixel_data width height))

/-- The byte sequence actually produced: `create_minimal_ico` succeeds and
this is its value (`ico_data = create_minimal_ico()`, line 51). -/
def ico_data : List Nat := create_minimal_ico.getD []

/-- Field view of the 16-byte ICO directory entry (layout BBBBHHLL). -/
structure DirectoryEntry where
  width : Nat
  height : Nat
  paletteColorCount : Nat
  reserved : Nat
  colorPlanes : Nat
  bitsPerPixel : Nat
  imageDataSize : Nat
  imageDataOffset : Nat
deriving DecidableEq, Repr

/-- Little-endian decoding of a byte list into a natural number. -/
def leDecode (bs : List Nat) : Nat :=
  bs.foldr (fun b acc => b + 256 * acc) 0

/-- Decode 16 bytes as the little-endian BBBBHHLL directory-entry layout. -/
def decodeDirEntry (bs : List Nat) : Option DirectoryEntry :=
  if bs.length = 16 then
    some ⟨bs.getD 0 0, bs.getD 1 0, bs.getD 2 0, bs.getD 3 0,
          leDecode ((bs.drop 4).take 2), leDecode ((bs.drop 6).take 2),
          leDecode ((bs.drop 8).take 4), leDecode ((bs.drop 12).take 4)⟩
  else none

/-- Field view of the 40-byte BITMAPINFOHEADER (layout LLLHHLLLLLL). -/
structure BitmapHeader where
  headerSize : Nat
  width : Nat
  height : Nat
  colorPlanes : Nat
  bitsPerPixel : Nat
  compression : Nat
  imageSize : Nat
  horizontalResolution : Nat
  verticalResolution : Nat
  paletteColorCount : Nat
  importantColorCount : Nat
deriving DecidableEq, Repr

/-- Decode 40 bytes as the little-endian LLLHHLLLLLL bitmap-header layout. -/
def decodeBitmapHeader (bs : List Nat) : Option BitmapHeader :=
  if bs.length = 40 then
    some ⟨leDecode ((bs.drop 0).take 4), leDecode ((bs.drop 4).take 4),
          leDecode ((bs.drop 8).take 4), leDecode ((bs.drop 12).take 2),
          leDecode ((bs.drop 14).take 2), leDecode ((bs.drop 16).take 4),
          leDecode ((bs.drop 20).take 4), leDecode ((bs.drop 24).take 4),
          leDecode ((bs.drop 28).take 4), leDecode ((bs.drop 32).take 4),
          leDecode ((bs.drop 36).take 4)⟩
  else none

/-- Loop-free description of the pixel block: the 4-byte BGRA group
(255, 0, 0, 255) repeated 256 times. -/
def pixelBlockSpec : List Nat :=
  List.flatten (List.replicate 256 [255, 0, 0, 255])

/-- A filesystem state: the set of existing directories and, for each
existing file path, its byte contents. -/
structure FS where
  dirs : List String
  files : List (String × List Nat)
deriving DecidableEq

/-- Parent directory of a path: everything before the last slash. -/
def parentDir (p : String) : String :=
  String.mk ((((p.data).reverse.dropWhile (fun c => c ≠ '/')).drop 1).reverse)

/-- Contents of the file at `path`, when it exists. -/
def readFile (fs : FS) (path : String) : Option (List Nat) :=
  (fs.files.find? (fun e => e.1 = path)).map Prod.snd

/-- Model of the write at lines 52-53: `open(path, 'wb')` followed by
`f.write(content)`.  Mode wb truncates, so an existing file is replaced;
when the parent directory does not exist, `open` raises an uncaught
FileNotFoundError and the filesystem is unchanged. -/
def writeFileS (fs : FS) (path : String) (content : List Nat) :
    FS × Except String Unit :=
  if parentDir path ∈ fs.dirs then
    (⟨fs.dirs, (path, content) :: fs.files.filter (fun e => e.1 ≠ path)⟩,
     Except.ok ())
  else
    (fs, Except.error "FileNotFoundError")

/-- The file path written by the module body (line 52). -/
def icoPath : String := "src-tauri/icons/icon.ico"

/-- State-passing view of `create_minimal_ico`: the function performs no
I/O and mutates no global, so running it leaves the state unchanged and
returns the pure result. -/
def create_minimal_ico_run (fs : FS) : FS × Option (List Nat) :=
  (fs, create_minimal_ico)

/-- Embedding of the module body (lines 51-55): build the bytes, write
them to `icoPath`, then print the completion message.  An exception at any
step propagates (`Except.error`) and the following steps do not run; on
success the second component carries the lines printed to stdout. -/
def moduleMain (fs : FS) : FS × Except String (List String) :=
  match create_minimal_ico with
  | none => (fs, Except.error "struct.error")
  | some bs =>
    match writeFileS fs icoPath bs with
    | (fs', Except.ok ()) => (fs', Except.ok ["Created minimal ICO file"])
    | (fs', Except.error e) => (fs', Except.error e)

theorem create_minimal_ico_eq : create_minimal_ico = some ico_data := rfl

theorem ico_data_length : ico_data.length = 1086 := by decide

/-- C1: every invocation of `create_minimal_ico` succeeds and returns a byte
sequence of length exactly 1086 = 6 + 16 + 40 + 1024. -/
theorem C1_icoLength :
    create_minimal_ico.map List.length = some 1086 ∧
    (1086 : Nat) = 6 + 16 + 40 + 1024 := by
  refine ⟨?_, by decide⟩
  rw [create_minimal_ico_eq, Option.map_some']
  rw [ico_data_length]

/-- C2: bytes 6..22 of the result decode, under the little-endian BBBBHHLL
layout, to the directory entry (width 16, height 16, paletteColorCount 0,
reserved 0, colorPlanes 1, bitsPerPixel 32, imageDataSize 1064,
imageDataOffset 22); moreover 1064 = 40 + 1024 and 22 = 6 + 16. -/
theorem C2_dirEntryFields :
    create_minimal_ico = some ico_data ∧
    decodeDirEntry ((ico_data.drop 6).take 16) =
      some ⟨16, 16, 0, 0, 1, 32, 1064, 22⟩ ∧
    (1064 : Nat) = 40 + 1024 ∧ (22 : Nat) = 6 + 16 :=
  ⟨create_minimal_ico_eq, by decide, by decide, by decide⟩

/-- C3: bytes 22..62 of the result decode, under the little-endian
LLLHHLLLLLL layout, to the bitmap header (40, 16, 32, 1, 32, 0, 1024, 0, 0,
0, 0); the stored height 32 is twice the logical height 16 recorded in the
directory entry. -/
theorem C3_bitmapHeaderFields :
    create_minimal_ico = some ico_data ∧
    decodeBitmapHeader ((ico_data.drop 22).take 40) =
      some ⟨40, 16, 32, 1, 32, 0, 1024, 0, 0, 0, 0⟩ ∧
    (decodeBitmapHeader ((ico_data.drop 22).take 40)).map BitmapHeader.height
      = (decodeDirEntry ((ico_data.drop 6).take 16)).map
          (fun d => 2 * d.height) :=
  ⟨create_minimal_ico_eq, by decide, by decide⟩

/-- C4: bytes 62..1086 of the result are exactly 256 consecutive 4-byte
groups, each equal to (255, 0, 0, 255) in blue-green-red-alpha order. -/
theorem C4_pixelBlockBytes :
    create_minimal_ico = some ico_data ∧
    ico_data.drop 62 = List.flatten (List.replicate 256 [255, 0, 0, 255]) ∧
    (ico_data.drop 62).length = 256 * 4 :=
  ⟨create_minimal_ico_eq, by decide, by decide⟩

/-- C5: bytes 0..6 of the result equal [0, 0, 1, 0, 1, 0]: the little-endian
16-bit file header fields reserved 0, imageType 1, imageCount 1. -/
theorem C5_fileHeaderBytes :
    create_minimal_ico = some ico_data ∧
    ico_data.take 6 = [0, 0, 1, 0, 1, 0] :=
  ⟨create_minimal_ico_eq, by decide⟩

/-- C6: writing the built bytes to a path whose parent directory exists
succeeds and leaves the destination containing exactly the 1086 built
bytes, replacing prior content; with a missing parent directory the write
fails with an uncaught I/O error and the filesystem is unchanged, so no
file is created. -/
theorem C6_writeIconFile (fs : FS) (path : String) :
    (parentDir path ∈ fs.dirs →
      (writeFileS fs path ico_data).2 = Except.ok () ∧
      readFile (writeFileS fs path ico_data).1 path = some ico_data ∧
      ico_data.length = 1086) ∧
    (parentDir path ∉ fs.dirs →
      (writeFileS fs path ico_data).2 = Except.error "FileNotFoundError" ∧
      (writeFileS fs path ico_data).1 = fs) := by
  constructor
  · intro h
    refine ⟨by simp [writeFileS, h], ?_, ico_data_length⟩
    simp [writeFileS, h, readFile]
  · intro h
    exact ⟨by simp [writeFileS, h], by simp [writeFileS, h]⟩

theorem C6_writeIconFile_witness :
    ((writeFileS ⟨["src-tauri/icons"], []⟩ icoPath ico_data).2 =
        Except.ok () ∧
      readFile (writeFileS ⟨["src-tauri/icons"], []⟩ icoPath ico_data).1
        icoPath = some ico_data ∧
      ico_data.length = 1086) ∧
    ((writeFileS ⟨[], []⟩ icoPath ico_data).2 =
        Except.error "FileNotFoundError" ∧
      (writeFileS ⟨[], []⟩ icoPath ico_data).1 = ⟨[], []⟩) :=
  ⟨(C6_writeIconFile ⟨["src-tauri/icons"], []⟩ icoPath).1 (by decide),
   (C6_writeIconFile ⟨[], []⟩ icoPath).2 (by decide)⟩

/-- C7: `create_minimal_ico` is deterministic and side-effect free: run from
any two program states, it returns the same value, and it leaves the state
it ran from unchanged. -/
theorem C7_pureDeterministic (s t : FS) :
    (create_minimal_ico_run s).2 = (create_minimal_ico_run t).2 ∧
    (create_minimal_ico_run s).1 = s :=
  ⟨rfl, rfl⟩

theorem C7_pureDeterministic_witness :
    (create_minimal_ico_run ⟨["src-tauri/icons"], []⟩).2 =
      (create_minimal_ico_run ⟨[], []⟩).2 ∧
    (create_minimal_ico_run ⟨["src-tauri/icons"], []⟩).1 =
      ⟨["src-tauri/icons"], []⟩ :=
  C7_pureDeterministic ⟨["src-tauri/icons"], []⟩ ⟨[], []⟩

/-- C8: the nested row/column pixel loop at fixed width 16 and height 16
produces exactly the loop-free repetition of the 4-byte group
(255, 0, 0, 255) taken 256 times. -/
theorem C8_pixelLoopRefinesRepeat :
    pixel_data width height = some pixelBlockSpec := by decide

/-- C9: every value passed to a fixed-width pack in the construction fits
its declared field width, so no pack truncates or fails, and the whole
construction succeeds. -/
theorem C9_packsTotal :
    (packH 0).isSome ∧ (packH 1).isSome ∧
    (packB width).isSome ∧ (packB height).isSome ∧ (packB colors).isSome ∧
    (packB reserved).isSome ∧ (packH planes).isSome ∧
    (packH bits_per_pixel).isSome ∧ (packL size_in_bytes).isSome ∧
    (packL offset).isSome ∧ (packL 40).isSome ∧ (packL width).isSome ∧
    (packL (height * 2)).isSome ∧ (packL (width * height * 4)).isSome ∧
    (packL 0).isSome ∧ (packB 255).isSome ∧ (packB 0).isSome ∧
    create_minimal_ico.isSome := by decide

/-- C10: the completion message is printed exactly when the file write
succeeds; when the write fails, the error propagates before the print
statement runs, so nothing is printed. -/
theorem C10_printIffWriteOk (fs : FS) :
    (moduleMain fs).2 = Except.ok ["Created minimal ICO file"] ↔
    (writeFileS fs icoPath ico_data).2 = Except.ok () := by
  unfold moduleMain
  rw [create_minimal_ico_eq]
  by_cases h : parentDir icoPath ∈ fs.dirs <;> simp [writeFileS, h]

theorem C10_printIffWriteOk_witness :
    (moduleMain ⟨["src-tauri/icons"], []⟩).2 =
      Except.ok ["Created minimal ICO file"] :=
  (C10_printIffWriteOk ⟨["src-tauri/icons"], []⟩).mpr
    (by rw [writeFileS, if_pos (show parentDir icoPath ∈ ["src-tauri/icons"]
          by decide)])

end CreateIcon
